import Mathlib

/-!
Verification development for the sdcard FUSE daemon core
(src/sdcard/sdcard.c) through a shallow embedding.

Modelling conventions:
* Heap pointers are natural-number addresses.  The node heap is an
  association list from address to node record, and calloc is modelled as
  a bump allocator threaded through the state (each allocation yields a
  fresh address, as calloc returns distinct live blocks; the numeric
  start of the allocator is a parameter, since the source never inspects
  the numeric value of a pointer except by casting it to an id).
* The null pointer is the absence of an address: fields that may hold a
  null pointer are Option Nat.  The root node lives at an address chosen
  at initialization (it is the address of the fuse structure member).
* Machine integers: refcount is a 32-bit counter, so the unguarded
  increment of the source is taken modulo 2 to the 32 (inc32); the
  decrement is guarded by the source itself (dec_refcount).  The 64-bit
  id and generation counters cannot overflow in any modelled run and are
  plain naturals.
* Host syscalls are an oracle (structure Host) consulted exactly where
  the source calls lstat, open, pread64, pwrite64 and rename; the
  allocation points that can fail (calloc and malloc in node_create,
  realloc in rename_node, malloc of a handle in the OPEN case) are
  Boolean fields of the oracle, and the possible failure of the writev
  in fuse_reply is the Boolean replyWriteOk.
* Undefined behaviour of the source (dereferencing a null or freed
  pointer) is represented by the value none, or by RRes.crash which
  additionally keeps the state of memory at the moment of the fault.
* The global list fuse->all and the node field of handles are write-only
  bookkeeping in the source and are not modelled.
-/

/-- One node of the in-memory inode graph (struct node). -/
structure Node where
  nid : Nat
  gen : Nat
  next : Option Nat
  child : Option Nat
  parent : Option Nat
  refcount : Nat
  namelen : Nat
  name : String
deriving DecidableEq

abbrev Heap := List (Nat × Node)

def heapGet : Heap → Nat → Option Node
  | [], _ => none
  | (k, v) :: t, a => if k = a then some v else heapGet t a

def heapSet : Heap → Nat → Node → Heap
  | [], _, _ => []
  | (k, v) :: t, a, n => (if k = a then (k, n) else (k, v)) :: heapSet t a n

def heapRemove : Heap → Nat → Heap
  | [], _ => []
  | (k, v) :: t, a => if k = a then heapRemove t a else (k, v) :: heapRemove t a

/-- The session state (struct fuse together with the process-wide policy
flag force_lower_case and the open handles, which the source keeps as
malloc blocks addressed by their pointer). -/
structure State where
  next_generation : Nat
  next_node_id : Nat
  rootAddr : Nat
  heap : Heap
  next_addr : Nat
  force_lower_case : Bool
  handles : List (Nat × Nat)
deriving DecidableEq

/-- The unguarded 32-bit increment refcount++ of the source. -/
def inc32 (r : Nat) : Nat := (r + 1) % 4294967296

/-- Host stat record fields read by attr_from_stat. -/
structure Stat where
  st_ino : Nat
  st_size : Nat
  st_blocks : Nat
  st_atime : Nat
  st_mtime : Nat
  st_ctime : Nat
  st_atime_nsec : Nat
  st_mtime_nsec : Nat
  st_ctime_nsec : Nat
  st_mode : Nat
  st_nlink : Nat
deriving DecidableEq

/-- Wire attribute record (struct fuse_attr). -/
structure FuseAttr where
  ino : Nat
  size : Nat
  blocks : Nat
  atime : Nat
  mtime : Nat
  ctime : Nat
  atimensec : Nat
  mtimensec : Nat
  ctimensec : Nat
  mode : Nat
  nlink : Nat
  uid : Nat
  gid : Nat
  rdev : Nat
deriving DecidableEq

def zeroAttr : FuseAttr :=
  { ino := 0, size := 0, blocks := 0, atime := 0, mtime := 0, ctime := 0,
    atimensec := 0, mtimensec := 0, ctimensec := 0, mode := 0, nlink := 0,
    uid := 0, gid := 0, rdev := 0 }

/-- AID_SDCARD_RW from android_filesystem_config.h. -/
def AID_SDCARD_RW : Nat := 1015

/-- attr_from_stat: copy the stat fields and force the policy permissions.
The mode computation mirrors the source: on a 32-bit mode,
(mode & ~0777) | 0775 when the 0100 bit is set, (mode & ~0777) | 0664
otherwise; 4294966784 is the 32-bit value of ~0777. -/
def attr_from_stat (attr : FuseAttr) (s : Stat) : FuseAttr :=
  let m :=
    if s.st_mode &&& 0o100 ≠ 0 then (s.st_mode &&& 4294966784) ||| 0o775
    else (s.st_mode &&& 4294966784) ||| 0o664
  { attr with
    ino := s.st_ino, size := s.st_size, blocks := s.st_blocks,
    atime := s.st_atime, mtime := s.st_mtime, ctime := s.st_ctime,
    atimensec := s.st_atime_nsec, mtimensec := s.st_mtime_nsec,
    ctimensec := s.st_ctime_nsec, mode := m, nlink := s.st_nlink,
    uid := 0, gid := AID_SDCARD_RW }

/-- normalize_name: squash to lower case when the policy flag is set
(ASCII in the source; the flag is false in every modelled run). -/
def normalize_name (flc : Bool) (s : String) : String :=
  if flc then s.toLower else s

/-- Walk the parent chain collecting (name, namelen) pairs, root first.
The fuel bounds the walk (the source would loop forever on a cycle). -/
def path_chain (h : Heap) : Nat → Option Nat → List (String × Nat) →
    Option (List (String × Nat))
  | 0, _, _ => none
  | _ + 1, none, acc => some acc
  | fuel + 1, some a, acc =>
    match heapGet h a with
    | none => none
    | some n => path_chain h fuel n.parent ((n.name, n.namelen) :: acc)

/-- node_get_path: build the absolute host path by prepending a slash and
a name for every node on the chain (and the optional trailing name).  The
source writes into a 1024-byte buffer from the tail; its per-step bound
check succeeds exactly when the total of (len + 1) over all segments is
at most 1023. -/
def node_get_path (st : State) (addr : Nat) (name : Option String) :
    Option String :=
  let start := match name with
    | some s => [(s, s.length)]
    | none => []
  match path_chain st.heap (st.heap.length + 1) (some addr) start with
  | none => none
  | some segs =>
    let total := segs.foldl (fun acc p => acc + p.2 + 1) 0
    if total ≤ 1023 then
      some (normalize_name st.force_lower_case
        (segs.foldl (fun acc p => acc ++ "/" ++ p.1) ""))
    else none

/-- add_node_to_parent: node->parent = parent; node->next = parent->child;
parent->child = node; parent->refcount++.  none when either address does
not hold a live node (undefined behaviour in the source). -/
def add_node_to_parent (st : State) (addr : Nat) (parentAddr : Nat) :
    Option State :=
  match heapGet st.heap addr, heapGet st.heap parentAddr with
  | some node, some parent =>
    let h1 := heapSet st.heap addr
      { node with parent := some parentAddr, next := parent.child }
    let h2 := heapSet h1 parentAddr
      { parent with child := some addr, refcount := inc32 parent.refcount }
    some { st with heap := h2 }
  | _, _ => none

/-- node_create: allocate a zeroed node (calloc), set nid and gen, link it
under the parent, store the name.  allocOk false models failure of calloc
or of the name malloc, in which case the source returns 0 and the state
is unchanged. -/
def node_create (st : State) (parentAddr : Nat) (name : String)
    (nid gen : Nat) (allocOk : Bool) : Option (Nat × State) :=
  if allocOk = false then none
  else
    let addr := st.next_addr
    let node : Node :=
      { nid := nid, gen := gen, next := none, child := none, parent := none,
        refcount := 0, namelen := name.length, name := name }
    let st1 : State :=
      { st with heap := (addr, node) :: st.heap, next_addr := addr + 1 }
    match add_node_to_parent st1 addr parentAddr with
    | none => none
    | some st2 => some (addr, st2)

/-- rename_node: node->namelen = strlen(name) happens before the realloc,
so a failing realloc (allocOk = false) leaves the new namelen with the
old name and returns 0 (the Boolean of the result).  none only when the
address does not hold a live node. -/
def rename_node (st : State) (addr : Nat) (name : String) (allocOk : Bool) :
    Option (Bool × State) :=
  match heapGet st.heap addr with
  | none => none
  | some node =>
    let node1 := { node with namelen := name.length }
    if allocOk = false then
      some (false, { st with heap := heapSet st.heap addr node1 })
    else
      let node2 := { node1 with name := name }
      some (true, { st with heap := heapSet st.heap addr node2 })

/-- fuse_init: next_node_id = 2, next_generation = 0, the root node gets
nid FUSE_ROOT_ID = 1, no parent, no children, refcount 2, and its name is
the host root path (rename_node on the fresh root; the realloc is assumed
to succeed as in the source, which does not check it).  The gen field of
the root is never written by the source (the fuse struct is a stack
local); it is fixed to 0 here and never read. -/
def fuse_init (rootAddr baseAddr : Nat) (path : String) (flc : Bool) :
    State :=
  let root : Node :=
    { nid := 1, gen := 0, next := none, child := none, parent := none,
      refcount := 2, namelen := path.length, name := path }
  { next_generation := 0, next_node_id := 2, rootAddr := rootAddr,
    heap := [(rootAddr, root)], next_addr := baseAddr,
    force_lower_case := flc, handles := [] }

/-- lookup_by_inode: nid 1 is the root, any other nid is cast back to a
pointer (id_to_ptr).  The source performs no validity check. -/
def lookup_by_inode (st : State) (nid : Nat) : Nat :=
  if nid = 1 then st.rootAddr else nid

/-- Walk a sibling list looking for a node with the given name. -/
def lcbn_walk (st : State) (name : String) : Nat → Option Nat → Option Nat
  | 0, _ => none
  | _ + 1, none => none
  | fuel + 1, some a =>
    match heapGet st.heap a with
    | none => none
    | some n => if n.name = name then some a else lcbn_walk st name fuel n.next

/-- lookup_child_by_name: linear scan of the children of a node. -/
def lookup_child_by_name (st : State) (parentAddr : Nat) (name : String) :
    Option Nat :=
  match heapGet st.heap parentAddr with
  | none => none
  | some p => lcbn_walk st name (st.heap.length + 1) p.child

/-- dec_refcount: decrement only when positive (the source logs an error
and leaves the count untouched at zero). -/
def dec_refcount (n : Node) : Node :=
  if n.refcount > 0 then { n with refcount := n.refcount - 1 } else n

/-- Apply dec_refcount to the node stored at an address. -/
def dec_refcount_at (st : State) (a : Nat) : State :=
  match heapGet st.heap a with
  | none => st
  | some n => { st with heap := heapSet st.heap a (dec_refcount n) }

/-- The scan inside remove_child: find the child with the given nid,
unlink it from the sibling list, clear its next and parent, decrement the
parent refcount.  none when the nid is not found (the source returns 0). -/
def rc_walk (st : State) (parentAddr : Nat) (nid : Nat) :
    Option Nat → Option Nat → Nat → Option State
  | _, _, 0 => none
  | _, none, _ + 1 => none
  | prev, some a, fuel + 1 =>
    match heapGet st.heap a with
    | none => none
    | some n =>
      if n.nid = nid then
        let st1 :=
          match prev with
          | none =>
            match heapGet st.heap parentAddr with
            | some p =>
              let p1 := { p with child := n.next }
              { st with heap := heapSet st.heap parentAddr p1 }
            | none => st
          | some pv =>
            match heapGet st.heap pv with
            | some pn =>
              let pn1 := { pn with next := n.next }
              { st with heap := heapSet st.heap pv pn1 }
            | none => st
        let n2 := { n with next := none, parent := none }
        let st2 := { st1 with heap := heapSet st1.heap a n2 }
        some (dec_refcount_at st2 parentAddr)
      else rc_walk st parentAddr nid (some a) n.next fuel

def remove_child (st : State) (parentAddr : Nat) (nid : Nat) :
    Option State :=
  match heapGet st.heap parentAddr with
  | none => none
  | some parent => rc_walk st parentAddr nid none parent.child
      (st.heap.length + 1)

/-- Result of node_release: ok, or crash at undefined behaviour keeping
the state of memory at the fault. -/
inductive RRes where
  | ok (st : State)
  | crash (st : State)
deriving DecidableEq

/-- The sibling walk of node_release when the dying node is not the first
child: find node2 with node2->next == node, splice.  none when the walk
runs off the list (the source dereferences null there). -/
def sibling_unlink (st : State) (addr : Nat) (newNext : Option Nat) :
    Nat → Option Nat → Option State
  | 0, _ => none
  | _ + 1, none => none
  | fuel + 1, some a =>
    match heapGet st.heap a with
    | none => none
    | some n2 =>
      if n2.next = some addr then
        some { st with heap := heapSet st.heap a ({ n2 with next := newNext }) }
      else sibling_unlink st addr newNext fuel n2.next

/-- node_release: dec_refcount, and at zero detach from the parent via
the sibling list, recursively release the parent, then free the node.
The source dereferences node->parent without a null check: releasing the
root down to zero crashes. -/
def node_release : Nat → State → Nat → RRes
  | 0, st, _ => .crash st
  | fuel + 1, st, addr =>
    match heapGet st.heap addr with
    | none => .crash st
    | some n =>
      let n1 := dec_refcount n
      let st1 : State := { st with heap := heapSet st.heap addr n1 }
      if n1.refcount = 0 then
        match n1.parent with
        | none => .crash st1
        | some p =>
          match heapGet st1.heap p with
          | none => .crash st1
          | some pn =>
            let st2? :=
              if pn.child = some addr then
                let pn1 := { pn with child := n1.next }
                some { st1 with heap := heapSet st1.heap p pn1 }
              else
                sibling_unlink st1 addr n1.next (st1.heap.length + 1) pn.child
            match st2? with
            | none => .crash st1
            | some st2 =>
              match node_release fuel st2 p with
              | .crash s => .crash s
              | .ok st3 =>
                .ok { st3 with heap := heapRemove st3.heap addr }
      else .ok st1

/-- The FORGET loop: while (req->nlookup--) node_release(node). -/
def forget_loop (st : State) (addr : Nat) : Nat → RRes
  | 0 => .ok st
  | n + 1 =>
    match node_release (st.heap.length + 1) st addr with
    | .ok st1 => forget_loop st1 addr n
    | .crash s => .crash s

/-- Host-side oracle: outcomes of the syscalls and allocations the core
performs.  Syscall failures carry the (positive) errno value. -/
structure Host where
  lstat : String → Except Nat Stat
  rename : String → String → Option Nat
  openf : String → Nat → Except Nat Nat
  pread : Nat → Nat → Nat → Except Nat Nat
  pwrite : Nat → Nat → Nat → Except Nat Nat
  nodeAllocOk : Bool
  renameAllocOk : Bool
  handleAllocOk : Bool
  replyWriteOk : Bool

/-- lstat through a possibly-null path pointer (a null path makes the
syscall fail with EFAULT = 14, as when node_get_path returned 0). -/
def do_lstat (host : Host) (p : Option String) : Except Nat Stat :=
  match p with
  | none => .error 14
  | some s => host.lstat s

def do_open (host : Host) (p : Option String) (flags : Nat) :
    Except Nat Nat :=
  match p with
  | none => .error 14
  | some s => host.openf s flags

def do_rename (host : Host) (a b : Option String) : Option Nat :=
  match a, b with
  | some x, some y => host.rename x y
  | _, _ => some 14

/-- Reply bodies the modelled handlers emit. -/
inductive Body where
  | entry (nodeid generation entry_valid attr_valid : Nat) (attr : FuseAttr)
  | openOut (fh open_flags : Nat)
  | writeOut (size : Nat)
  | bytes (count : Nat)
deriving DecidableEq

/-- A message written back on the kernel channel: either a bare header
(fuse_status, or the oops path) carrying an error code, or a header plus
body (fuse_reply, which always sets error to 0). -/
inductive Msg where
  | status (unique : Nat) (error : Int)
  | reply (unique : Nat) (body : Body)
deriving DecidableEq

/-- fuse_status: write a bare reply header with the given error. -/
def fuse_status (unique : Nat) (err : Int) : List Msg :=
  [Msg.status unique err]

/-- fuse_reply: writev of header plus body.  The source ignores a failed
writev (beyond logging); on failure the kernel receives nothing, which is
modelled as the empty emission. -/
def fuse_reply (host : Host) (unique : Nat) (body : Body) : List Msg :=
  if host.replyWriteOk then [Msg.reply unique body] else []

/-- node_lookup: build the host path of the child, lstat it, then find or
create the child node.  The id drawn from next_node_id is immediately
overwritten with the pointer-punned address of the fresh node
(node->nid = ptr_to_id(node)).  The counters are post-incremented before
node_create can fail, exactly as the argument evaluation in the source.
Returns none for undefined behaviour (invalid parent), otherwise the
optional (address, filled attr) the source returns through node* and the
attr out-parameter. -/
def node_lookup (host : Host) (st : State) (parentAddr : Nat)
    (name : String) (attr : FuseAttr) :
    Option (Option (Nat × FuseAttr) × State) :=
  match heapGet st.heap parentAddr with
  | none => none
  | some _ =>
    let path := node_get_path st parentAddr (some name)
    match do_lstat host path with
    | .error _ => some (none, st)
    | .ok s =>
      match lookup_child_by_name st parentAddr name with
      | some addr =>
        match heapGet st.heap addr with
        | none => none
        | some n =>
          some (some (addr, { attr_from_stat attr s with ino := n.nid }), st)
      | none =>
        let nid := st.next_node_id
        let gen := st.next_generation
        let st1 := { st with next_node_id := nid + 1,
                             next_generation := gen + 1 }
        match node_create st1 parentAddr name nid gen host.nodeAllocOk with
        | none => some (none, st1)
        | some (addr, st2) =>
          match heapGet st2.heap addr with
          | none => none
          | some n =>
            let n1 := { n with nid := addr }
            let st3 := { st2 with heap := heapSet st2.heap addr n1 }
            some (some (addr, { attr_from_stat attr s with ino := addr }),
                  st3)

/-- lookup_entry: node_lookup, bump the refcount of the found node, and
reply with the entry record.  The refcount increment is NOT rolled back
when the reply write fails: the source ignores the writev result. -/
def lookup_entry (host : Host) (st : State) (nodeAddr : Nat)
    (name : String) (unique : Nat) : Option (State × List Msg) :=
  match node_lookup host st nodeAddr name zeroAttr with
  | none => none
  | some (none, st1) => some (st1, fuse_status unique (-2))
  | some (some (addr, attr), st1) =>
    match heapGet st1.heap addr with
    | none => none
    | some n =>
      let n1 := { n with refcount := inc32 n.refcount }
      let st2 := { st1 with heap := heapSet st1.heap addr n1 }
      some (st2, fuse_reply host unique (Body.entry n.nid n.gen 10 10 attr))

/-- The fixed fields of struct fuse_in_header the model consumes (uid,
gid, pid and padding are never read by the dispatcher; the opcode is
represented by the Request constructor). -/
structure InHeader where
  len : Nat
  unique : Nat
  nodeid : Nat
deriving DecidableEq

/-- Parsed per-opcode payloads for the opcodes the claims exercise.  The
constructor other stands for every opcode that reaches the NOTIMPL
default of the switch. -/
inductive Request where
  | lookup (name : String)
  | forget (nlookup : Nat)
  | rename (newdir : Nat) (oldname newname : String)
  | openf (flags : Nat)
  | read (fh size offset : Nat)
  | write (fh size offset : Nat)
  | flush
  | other (opcode : Nat)
deriving DecidableEq

/-- handle_fuse_request: framing check, nodeid resolution, opcode switch.
sizeof(struct fuse_in_header) = 40.  A framing failure returns with no
reply.  Undefined behaviour (dereference of an invalid node or handle)
is none.  The FUSE_WRITE success path replies and then falls through
(goto oops) into the ENOSYS tail of the default case, emitting a second
header for the same request. -/
def handle_fuse_request (host : Host) (st : State) (readLen : Nat)
    (hdr : InHeader) (req : Request) : Option (State × List Msg) :=
  if readLen < 40 ∨ hdr.len ≠ readLen then some (st, [])
  else
    if hdr.nodeid ≠ 0 ∧ lookup_by_inode st hdr.nodeid = 0 then
      some (st, fuse_status hdr.unique (-2))
    else
      let node := if hdr.nodeid ≠ 0 then lookup_by_inode st hdr.nodeid else 0
      match req with
      | .lookup name => lookup_entry host st node name hdr.unique
      | .forget n =>
        match forget_loop st node n with
        | .ok st1 => some (st1, [])
        | .crash _ => none
      | .rename newdir oldname newname =>
        match lookup_child_by_name st node oldname with
        | none => some (st, fuse_status hdr.unique (-2))
        | some targetAddr =>
          match heapGet st.heap targetAddr with
          | none => none
          | some target =>
            let oldpath := node_get_path st node (some oldname)
            if newdir = 0 then some (st, fuse_status hdr.unique (-2))
            else
              let newparent := lookup_by_inode st newdir
              let newpath := node_get_path st newparent (some newname)
              match remove_child st node target.nid with
              | none => some (st, fuse_status hdr.unique (-2))
              | some st1 =>
                match rename_node st1 targetAddr newname
                    host.renameAllocOk with
                | none => none
                | some (false, st2) =>
                  some (st2, fuse_status hdr.unique (-12))
                | some (true, st2) =>
                  match add_node_to_parent st2 targetAddr newparent with
                  | none => none
                  | some st3 =>
                    match do_rename host oldpath newpath with
                    | some e =>
                      some (st3, fuse_status hdr.unique (-(Int.ofNat e)))
                    | none => some (st3, fuse_status hdr.unique 0)
      | .openf flags =>
        if host.handleAllocOk = false then
          some (st, fuse_status hdr.unique (-12))
        else
          let path := node_get_path st node none
          match do_open host path flags with
          | .error e =>
            -- source bug: fuse_status(fuse, hdr->unique, errno) passes
            -- the positive errno, not the negated one
            some (st, fuse_status hdr.unique (Int.ofNat e))
          | .ok fd =>
            let haddr := st.next_addr
            some ({ st with handles := (haddr, fd) :: st.handles,
                            next_addr := haddr + 1 },
                  fuse_reply host hdr.unique (Body.openOut haddr 0))
      | .read fh size offset =>
        if size > 131072 then some (st, fuse_status hdr.unique (-22))
        else
          match List.lookup fh st.handles with
          | none => none
          | some fd =>
            match host.pread fd size offset with
            | .error e =>
              -- source bug: positive errno, as in the OPEN case
              some (st, fuse_status hdr.unique (Int.ofNat e))
            | .ok res => some (st, fuse_reply host hdr.unique (Body.bytes res))
      | .write fh size offset =>
        match List.lookup fh st.handles with
        | none => none
        | some fd =>
          match host.pwrite fd size offset with
          | .error e =>
            -- source bug: positive errno, as in the OPEN case
            some (st, fuse_status hdr.unique (Int.ofNat e))
          | .ok res =>
            some (st, fuse_reply host hdr.unique (Body.writeOut res) ++
                      fuse_status hdr.unique (-38))
      | .flush => some (st, fuse_status hdr.unique 0)
      | .other _ => some (st, fuse_status hdr.unique (-38))

/-- One result of the read loop: a channel read error (errno) or a
delivered message of readLen bytes. -/
inductive ReadEvent where
  | err (errno : Nat)
  | msg (readLen : Nat) (hdr : InHeader) (req : Request)
deriving DecidableEq

/-- handle_fuse_requests: the session loop.  EINTR (4) on the read is
retried; any other read error ends the loop; every delivered message is
handled and the loop continues.  The list of events stands for the
prefix of channel activity under consideration; the accumulated output
is every message written back.  none propagates a crash. -/
def handle_fuse_requests (host : Host) : State → List ReadEvent →
    Option (State × List Msg)
  | st, [] => some (st, [])
  | st, .err e :: rest =>
    if e = 4 then handle_fuse_requests host st rest else some (st, [])
  | st, .msg l hdr req :: rest =>
    match handle_fuse_request host st l hdr req with
    | none => none
    | some (st1, ms) =>
      match handle_fuse_requests host st1 rest with
      | none => none
      | some (st2, ms2) => some (st2, ms ++ ms2)

/-- Stat of the host file hello: mode 0644, size 5. -/
def statHello : Stat :=
  { st_ino := 7, st_size := 5, st_blocks := 1, st_atime := 0, st_mtime := 0,
    st_ctime := 0, st_atime_nsec := 0, st_mtime_nsec := 0,
    st_ctime_nsec := 0, st_mode := 0o644, st_nlink := 1 }

/-- A host on which every syscall succeeds (lstat always finds the stat
of hello, pwrite writes everything) and every allocation succeeds. -/
def hostOk : Host :=
  { lstat := fun _ => .ok statHello,
    rename := fun _ _ => none,
    openf := fun _ _ => .ok 7,
    pread := fun _ _ _ => .ok 0,
    pwrite := fun _ size _ => .ok size,
    nodeAllocOk := true, renameAllocOk := true, handleAllocOk := true,
    replyWriteOk := true }

/-- hostOk, but the writev of fuse_reply fails. -/
def hostNoWrite : Host := { hostOk with replyWriteOk := false }

/-- hostOk, but the realloc inside rename_node fails. -/
def hostNoMem : Host := { hostOk with renameAllocOk := false }

/-- A host on which open fails with ENOENT (2), pread with EACCES (13)
and pwrite with ENOSPC (28). -/
def hostErr : Host :=
  { hostOk with
    openf := fun _ _ => .error 2,
    pread := fun _ _ _ => .error 13,
    pwrite := fun _ _ _ => .error 28 }

/-- The freshly initialized session: root at address 100, allocator base
1000, host root path /root, lower-casing off. -/
def sess0 : State := fuse_init 100 1000 "/root" false

/-- The session after the root child named nm has been created by one
LOOKUP and then looked up to refcount k: the child lives at address 1000
(its nid is that address), the root holds one extra reference for it. -/
def sess1 (nm : String) (k : Nat) : State :=
  { next_generation := 1, next_node_id := 3, rootAddr := 100,
    heap := [(1000,
      { nid := 1000, gen := 0, next := none, child := none,
        parent := some 100, refcount := k, namelen := nm.length,
        name := nm }),
      (100,
      { nid := 1, gen := 0, next := none, child := some 1000,
        parent := none, refcount := 3, namelen := 5, name := "/root" })],
    next_addr := 1001, force_lower_case := false, handles := [] }

/-- The session after the only child has been forgotten again: the heap
holds just the root, back at refcount 2. -/
def sessEnd : State :=
  { next_generation := 1, next_node_id := 3, rootAddr := 100,
    heap := [(100,
      { nid := 1, gen := 0, next := none, child := none, parent := none,
        refcount := 2, namelen := 5, name := "/root" })],
    next_addr := 1001, force_lower_case := false, handles := [] }

/-- The attr carried by the entry reply for hello under hostOk. -/
def attrHello : FuseAttr :=
  { ino := 1000, size := 5, blocks := 1, atime := 0, mtime := 0, ctime := 0,
    atimensec := 0, mtimensec := 0, ctimensec := 0, mode := 0o664,
    nlink := 1, uid := 0, gid := 1015, rdev := 0 }

/-- Header of a request addressed to the root. -/
def hdrRoot (u : Nat) : InHeader := { len := 40, unique := u, nodeid := 1 }

/-- Header of a request addressed to the child node at address 1000. -/
def hdrChild (u : Nat) : InHeader :=
  { len := 40, unique := u, nodeid := 1000 }

/-- A well-framed LOOKUP of hello from the root, unique 9. -/
def lookupEvt : ReadEvent := .msg 40 (hdrRoot 9) (.lookup "hello")

/-- A well-framed FORGET of the child with nlookup n, unique 10. -/
def forgetEvt (n : Nat) : ReadEvent := .msg 40 (hdrChild 10) (.forget n)

/-- The entry reply emitted for every successful LOOKUP of hello. -/
def entryMsg : Msg := Msg.reply 9 (Body.entry 1000 0 10 10 attrHello)

/-- Projection used to observe a refcount through an RRes. -/
def rc_at (r : RRes) (a : Nat) : Option Nat :=
  match r with
  | .ok st => (heapGet st.heap a).map Node.refcount
  | .crash st => (heapGet st.heap a).map Node.refcount

/-- Did the release sequence hit undefined behaviour. -/
def isCrash (r : RRes) : Bool :=
  match r with
  | .ok _ => false
  | .crash _ => true

/-- The state left behind by the ENOMEM rename of a to b: the child was
removed from the root (root refcount back to 2, child slot empty) but
never re-attached; its namelen was already overwritten with the length
of the new name while its name still is the old one. -/
def StC3 : State :=
  { next_generation := 1, next_node_id := 3, rootAddr := 100,
    heap := [(1000,
      { nid := 1000, gen := 0, next := none, child := none,
        parent := none, refcount := 1, namelen := 1, name := "a" }),
      (100,
      { nid := 1, gen := 0, next := none, child := none,
        parent := none, refcount := 2, namelen := 5, name := "/root" })],
    next_addr := 1001, force_lower_case := false, handles := [] }

/-- A well-framed OPEN of the child, unique 12. -/
def openEvt : ReadEvent := .msg 40 (hdrChild 12) (.openf 0)

/-- A well-framed WRITE of 5 bytes through handle 1001, unique 13. -/
def writeEvt : ReadEvent := .msg 40 (hdrChild 13) (.write 1001 5 0)

/-- The session of sess1 hello 1 after the OPEN: handle 1001 holds host
descriptor 7. -/
def StC4 : State :=
  { sess1 "hello" 1 with handles := [(1001, 7)], next_addr := 1002 }

/-- A message whose declared length 30 is smaller than the 40-byte
header (delivered with a matching short read). -/
def badEvt : ReadEvent :=
  .msg 30 { len := 30, unique := 6, nodeid := 0 } Request.flush

/-- A well-formed FLUSH on the root, unique 7. -/
def flushEvt : ReadEvent := .msg 40 (hdrRoot 7) Request.flush

def stat600 : Stat := { statHello with st_mode := 0o600 }

def stat700 : Stat := { statHello with st_mode := 0o700 }

/-- A node with refcount already zero. -/
def nodeZ : Node :=
  { nid := 5, gen := 0, next := none, child := none, parent := none,
    refcount := 0, namelen := 1, name := "z" }

/-- The entry attr for hello with a given ino. -/
def attrAt (i : Nat) : FuseAttr := { attrHello with ino := i }

/-- The state after the first LOOKUP of hello in a session rooted at ra
with allocator base: the child has nid equal to its own address base. -/
def StC2 (ra base : Nat) : State :=
  { next_generation := 1, next_node_id := 3, rootAddr := ra,
    heap := [(base,
      { nid := base, gen := 0, next := none, child := none,
        parent := some ra, refcount := 1, namelen := 5, name := "hello" }),
      (ra,
      { nid := 1, gen := 0, next := none, child := some base,
        parent := none, refcount := 3, namelen := 5, name := "/root" })],
    next_addr := base + 1, force_lower_case := false, handles := [] }

/-- Nodes of the general C9 scenario: a directory d under the root, with
children s (created before the target), the target f, and g (created
after the target, so it stands before f in the sibling list). -/
def dNode (ra base : Nat) (c : Option Nat) (rc : Nat) : Node :=
  { nid := base, gen := 0, next := none, child := c, parent := some ra,
    refcount := rc, namelen := 1, name := "d" }

def sNode (base : Nat) : Node :=
  { nid := base + 1, gen := 1, next := none, child := none,
    parent := some base, refcount := 1, namelen := 1, name := "s" }

def fNode (base k : Nat) : Node :=
  { nid := base + 2, gen := 2, next := some (base + 1), child := none,
    parent := some base, refcount := k, namelen := 1, name := "f" }

def gNode (base : Nat) (nx : Option Nat) : Node :=
  { nid := base + 3, gen := 3, next := nx, child := none,
    parent := some base, refcount := 1, namelen := 1, name := "g" }

def rootNode3 (base : Nat) : Node :=
  { nid := 1, gen := 0, next := none, child := some base, parent := none,
    refcount := 3, namelen := 5, name := "/root" }

/-- After LOOKUP d from the root. -/
def StD1 (ra base : Nat) : State :=
  { next_generation := 1, next_node_id := 3, rootAddr := ra,
    heap := [(base, dNode ra base none 1), (ra, rootNode3 base)],
    next_addr := base + 1, force_lower_case := false, handles := [] }

/-- After LOOKUP s from d: the refcount of d before f exists is 2. -/
def StD2 (ra base : Nat) : State :=
  { next_generation := 2, next_node_id := 4, rootAddr := ra,
    heap := [(base + 1, sNode base),
      (base, dNode ra base (some (base + 1)) 2), (ra, rootNode3 base)],
    next_addr := base + 2, force_lower_case := false, handles := [] }

/-- After k LOOKUPs of f from d (k at least 1): f heads the child list
of d, its sibling s behind it. -/
def StDF (ra base k : Nat) : State :=
  { next_generation := 3, next_node_id := 5, rootAddr := ra,
    heap := [(base + 2, fNode base k), (base + 1, sNode base),
      (base, dNode ra base (some (base + 2)) 3), (ra, rootNode3 base)],
    next_addr := base + 3, force_lower_case := false, handles := [] }

/-- After LOOKUP g from d: the later sibling g now heads the child list,
so the target f sits in the middle of the sibling chain. -/
def StDG (ra base k : Nat) : State :=
  { next_generation := 4, next_node_id := 6, rootAddr := ra,
    heap := [(base + 3, gNode base (some (base + 2))),
      (base + 2, fNode base k), (base + 1, sNode base),
      (base, dNode ra base (some (base + 3)) 4), (ra, rootNode3 base)],
    next_addr := base + 4, force_lower_case := false, handles := [] }

/-- After FORGET f with nlookup N: f was spliced out of the sibling
chain (g now points at s) and freed; d is one lower. -/
def StDPostF (ra base : Nat) : State :=
  { next_generation := 4, next_node_id := 6, rootAddr := ra,
    heap := [(base + 3, gNode base (some (base + 1))),
      (base + 1, sNode base),
      (base, dNode ra base (some (base + 3)) 3), (ra, rootNode3 base)],
    next_addr := base + 4, force_lower_case := false, handles := [] }

/-- After FORGET g: first-child unlink; d is back at its value from
before f existed. -/
def StDPostG (ra base : Nat) : State :=
  { next_generation := 4, next_node_id := 6, rootAddr := ra,
    heap := [(base + 1, sNode base),
      (base, dNode ra base (some (base + 1)) 2), (ra, rootNode3 base)],
    next_addr := base + 4, force_lower_case := false, handles := [] }

/-- After FORGET s. -/
def StDPostS (ra base : Nat) : State :=
  { next_generation := 4, next_node_id := 6, rootAddr := ra,
    heap := [(base, dNode ra base none 1), (ra, rootNode3 base)],
    next_addr := base + 4, force_lower_case := false, handles := [] }

/-- After FORGET d: the cascade released the root by one, back to its
seed 2; the heap holds only the root again. -/
def StDEnd (ra base : Nat) : State :=
  { next_generation := 4, next_node_id := 6, rootAddr := ra,
    heap := [(ra,
      { nid := 1, gen := 0, next := none, child := none, parent := none,
        refcount := 2, namelen := 5, name := "/root" })],
    next_addr := base + 4, force_lower_case := false, handles := [] }

/-- The events of the general C9 scenario. -/
def lkDEvt : ReadEvent :=
  .msg 40 { len := 40, unique := 11, nodeid := 1 } (.lookup "d")

def lkSEvt (base : Nat) : ReadEvent :=
  .msg 40 { len := 40, unique := 12, nodeid := base } (.lookup "s")

def lkFEvt (base : Nat) : ReadEvent :=
  .msg 40 { len := 40, unique := 13, nodeid := base } (.lookup "f")

def lkGEvt (base : Nat) : ReadEvent :=
  .msg 40 { len := 40, unique := 14, nodeid := base } (.lookup "g")

def fgFEvt (base n : Nat) : ReadEvent :=
  .msg 40 { len := 40, unique := 15, nodeid := base + 2 } (.forget n)

def fgGEvt (base : Nat) : ReadEvent :=
  .msg 40 { len := 40, unique := 16, nodeid := base + 3 } (.forget 1)

def fgSEvt (base : Nat) : ReadEvent :=
  .msg 40 { len := 40, unique := 17, nodeid := base + 1 } (.forget 1)

def fgDEvt (base : Nat) : ReadEvent :=
  .msg 40 { len := 40, unique := 18, nodeid := base } (.forget 1)

/-- The entry replies of the four lookups (generations 0 to 3 drawn in
lockstep, attr.ino equal to the node address). -/
def eDMsg (base : Nat) : Msg :=
  .reply 11 (Body.entry base 0 10 10 (attrAt base))

def eSMsg (base : Nat) : Msg :=
  .reply 12 (Body.entry (base + 1) 1 10 10 (attrAt (base + 1)))

def eFMsg (base : Nat) : Msg :=
  .reply 13 (Body.entry (base + 2) 2 10 10 (attrAt (base + 2)))

def eGMsg (base : Nat) : Msg :=
  .reply 14 (Body.entry (base + 3) 3 10 10 (attrAt (base + 3)))

theorem or_and_distrib (x y z : Nat) :
    (x ||| y) &&& z = (x &&& z) ||| (y &&& z) := by
  apply Nat.eq_of_testBit_eq
  intro i
  simp [Nat.testBit_and, Nat.testBit_or, Bool.and_or_distrib_right]

theorem or_shiftRight_distrib (x y n : Nat) :
    (x ||| y) >>> n = (x >>> n) ||| (y >>> n) := by
  apply Nat.eq_of_testBit_eq
  intro i
  simp [Nat.testBit_shiftRight, Nat.testBit_or]

theorem and_shiftRight_distrib (x y n : Nat) :
    (x &&& y) >>> n = (x >>> n) &&& (y >>> n) := by
  apply Nat.eq_of_testBit_eq
  intro i
  simp [Nat.testBit_shiftRight, Nat.testBit_and]

theorem and_mask_mod (x n : Nat) : x &&& (2 ^ n - 1) = x % 2 ^ n := by
  apply Nat.eq_of_testBit_eq
  intro i
  simp [Nat.testBit_and, Nat.testBit_mod_two_pow, Nat.testBit_two_pow_sub_one,
    Bool.and_comm]

theorem mode_or_low (m c : Nat) (hc : c < 512) :
    ((m &&& 4294966784) ||| c) % 512 = c := by
  have h9 : ((m &&& 4294966784) ||| c) % 2 ^ 9 = c := by
    rw [← and_mask_mod, or_and_distrib]
    have h1 : m &&& 4294966784 &&& (2 ^ 9 - 1) = 0 := by
      rw [Nat.and_assoc, show (4294966784 : Nat) &&& (2 ^ 9 - 1) = 0 from by decide,
        Nat.and_zero]
    have h2 : c &&& (2 ^ 9 - 1) = c := by
      rw [and_mask_mod]
      exact Nat.mod_eq_of_lt (by norm_num at hc ⊢; omega)
    rw [h1, h2, Nat.zero_or]
  norm_num at h9
  exact h9

theorem mode_or_high (m c : Nat) (hm : m < 4294967296) (hc : c < 512) :
    ((m &&& 4294966784) ||| c) / 512 = m / 512 := by
  have e512 : (512 : Nat) = 2 ^ 9 := by norm_num
  rw [e512, ← Nat.shiftRight_eq_div_pow, ← Nat.shiftRight_eq_div_pow,
    or_shiftRight_distrib, and_shiftRight_distrib]
  have hc0 : c >>> 9 = 0 := by
    rw [Nat.shiftRight_eq_div_pow]
    exact Nat.div_eq_of_lt (by omega)
  have hM : (4294966784 : Nat) >>> 9 = 2 ^ 23 - 1 := by decide
  have hms : m >>> 9 < 2 ^ 23 := by
    rw [Nat.shiftRight_eq_div_pow]
    omega
  rw [hc0, hM, Nat.or_zero, and_mask_mod, Nat.mod_eq_of_lt hms]

/-- Claim C8: for every host stat record, the attribute mapper produces a
mode whose low nine permission bits are 0775 when the execute bit 0100 is
set on the host mode and 0664 otherwise, preserving the higher mode bits
(file type, setuid, setgid, sticky), with uid forced to 0 and gid forced
to the sdcard group id; in particular host mode 0600 maps to 0664 and
host mode 0700 maps to 0775. -/
theorem c8_attr_mapper_mode_uid_gid (a : FuseAttr) (s : Stat)
    (hm : s.st_mode < 4294967296) :
    (s.st_mode &&& 0o100 ≠ 0 → (attr_from_stat a s).mode % 512 = 0o775) ∧
    (s.st_mode &&& 0o100 = 0 → (attr_from_stat a s).mode % 512 = 0o664) ∧
    (attr_from_stat a s).mode / 512 = s.st_mode / 512 ∧
    (attr_from_stat a s).uid = 0 ∧
    (attr_from_stat a s).gid = AID_SDCARD_RW := by
  have hmode : (attr_from_stat a s).mode =
      if s.st_mode &&& 0o100 ≠ 0 then (s.st_mode &&& 4294966784) ||| 0o775
      else (s.st_mode &&& 4294966784) ||| 0o664 := rfl
  refine ⟨fun h => ?_, fun h => ?_, ?_, rfl, rfl⟩
  · rw [hmode, if_pos h]
    exact mode_or_low _ _ (by norm_num)
  · rw [hmode, if_neg (by simp [h])]
    exact mode_or_low _ _ (by norm_num)
  · rw [hmode]
    by_cases h : s.st_mode &&& 0o100 ≠ 0
    · rw [if_pos h]
      exact mode_or_high _ _ hm (by norm_num)
    · rw [if_neg h]
      exact mode_or_high _ _ hm (by norm_num)

/-- Witness for c8_attr_mapper_mode_uid_gid: host mode 0600 maps to low
bits 0664, host mode 0700 maps to low bits 0775, uid 0, gid 1015. -/
theorem c8_attr_mapper_mode_uid_gid_witness :
    stat600.st_mode < 4294967296 ∧
    (attr_from_stat zeroAttr stat600).mode % 512 = 0o664 ∧
    (attr_from_stat zeroAttr stat700).mode % 512 = 0o775 ∧
    (attr_from_stat zeroAttr stat600).uid = 0 ∧
    (attr_from_stat zeroAttr stat600).gid = AID_SDCARD_RW :=
  ⟨by decide,
   (c8_attr_mapper_mode_uid_gid zeroAttr stat600 (by decide)).2.1 (by decide),
   (c8_attr_mapper_mode_uid_gid zeroAttr stat700 (by decide)).1 (by decide),
   (c8_attr_mapper_mode_uid_gid zeroAttr stat600 (by decide)).2.2.2.1,
   (c8_attr_mapper_mode_uid_gid zeroAttr stat600 (by decide)).2.2.2.2⟩

/-- Claim C10: a release step sets the refcount to max(old - 1, 0); at
zero it stays zero and the 32-bit counter never wraps. -/
theorem c10_dec_refcount_underflow_guarded (n : Node) :
    ((dec_refcount n).refcount : Int) = max ((n.refcount : Int) - 1) 0 ∧
    (n.refcount = 0 → (dec_refcount n).refcount = 0) ∧
    (n.refcount < 4294967296 → (dec_refcount n).refcount < 4294967296) := by
  by_cases h : n.refcount > 0
  · simp only [dec_refcount, if_pos h]
    refine ⟨by omega, by omega, by omega⟩
  · simp only [dec_refcount, if_neg h]
    refine ⟨by omega, by omega, by omega⟩

/-- Witness for c10_dec_refcount_underflow_guarded at a node of
refcount 0: the release leaves the refcount at 0 and below 2^32. -/
theorem c10_dec_refcount_underflow_guarded_witness :
    nodeZ.refcount = 0 ∧ (dec_refcount nodeZ).refcount = 0 ∧
    (dec_refcount nodeZ).refcount < 4294967296 :=
  ⟨rfl, (c10_dec_refcount_underflow_guarded nodeZ).2.1 rfl,
   (c10_dec_refcount_underflow_guarded nodeZ).2.2 (by decide)⟩

/-- Claim C1: the source increments the refcount of the looked-up node
and replies; when the writev of the reply fails the increment is NOT
rolled back, contradicting the rollback rule the source states in its
own README comment.  A first LOOKUP of hello leaves refcount 1; a second
LOOKUP whose reply write fails emits nothing and leaves refcount 2, not
the unchanged 1 the claim requires. -/
theorem c1_lookup_reply_write_failure_not_rolled_back :
    handle_fuse_request hostOk sess0 40 (hdrRoot 8) (.lookup "hello") =
      some (sess1 "hello" 1,
        [Msg.reply 8 (Body.entry 1000 0 10 10 attrHello)]) ∧
    handle_fuse_request hostNoWrite (sess1 "hello" 1) 40 (hdrRoot 9)
        (.lookup "hello") = some (sess1 "hello" 2, []) ∧
    (heapGet (sess1 "hello" 1).heap 1000).map Node.refcount = some 1 ∧
    (heapGet (sess1 "hello" 2).heap 1000).map Node.refcount = some 2 ∧
    (2 : Nat) ≠ 1 := by
  decide

/-- Claim C3: a RENAME whose rename_node realloc fails replies ENOMEM
but leaves a dangling node: the child a (still referenced by the kernel,
refcount 1) was detached from the root and never re-attached, so it is a
child of no parent, while before the request it was reachable from the
root.  Its namelen was moreover already overwritten with the new length. -/
theorem c3_rename_enomem_dangling_node :
    (heapGet (sess1 "a" 1).heap 100).map Node.child = some (some 1000) ∧
    handle_fuse_request hostNoMem (sess1 "a" 1) 40
        { len := 40, unique := 11, nodeid := 1 } (.rename 1 "a" "b") =
      some (StC3, [Msg.status 11 (-12)]) ∧
    (heapGet StC3.heap 1000).map Node.parent = some none ∧
    (heapGet StC3.heap 1000).map Node.refcount = some 1 ∧
    (heapGet StC3.heap 100).map Node.child = some none := by
  decide

/-- Claim C4: a successful WRITE does not produce exactly one reply.
After an OPEN (one reply, unique 12), the WRITE with unique 13 emits its
success reply carrying the byte count and then a second header for the
same unique with ENOSYS, because the handler falls through (goto oops)
into the default tail: two messages for one request. -/
theorem c4_write_emits_two_replies :
    handle_fuse_requests hostOk (sess1 "hello" 1) [openEvt, writeEvt] =
      some (StC4, [Msg.reply 12 (Body.openOut 1001 0),
                   Msg.reply 13 (Body.writeOut 5),
                   Msg.status 13 (-38)]) ∧
    ([Msg.reply 13 (Body.writeOut 5), Msg.status 13 (-38)].length = 2) ∧
    (2 : Nat) ≠ 1 := by
  decide

/-- Claim C5: the OPEN, READ and WRITE handlers pass the positive errno
to fuse_status instead of the negated one: open failing with ENOENT (2)
replies error 2, pread failing with EACCES (13) replies error 13, pwrite
failing with ENOSPC (28) replies error 28 — all positive, where the
claim requires the non-positive -errno. -/
theorem c5_positive_errno_replies :
    handle_fuse_request hostErr (sess1 "hello" 1) 40 (hdrChild 21)
        (.openf 0) = some (sess1 "hello" 1, [Msg.status 21 2]) ∧
    handle_fuse_request hostErr StC4 40 (hdrChild 22) (.read 1001 100 0) =
      some (StC4, [Msg.status 22 13]) ∧
    handle_fuse_request hostErr StC4 40 (hdrChild 23) (.write 1001 5 0) =
      some (StC4, [Msg.status 23 28]) ∧
    ¬((2 : Int) ≤ 0) ∧ ¬((13 : Int) ≤ 0) ∧ ¬((28 : Int) ≤ 0) := by
  decide

/-- Counterexample to claim C2 as stated: in the freshly initialized
session the first LOOKUP of hello replies with a nodeid equal to the
address of the freshly allocated node (here the allocator base 1000),
because node_lookup overwrites the id drawn from next_node_id with
ptr_to_id(node); the replied nodeid is not 2. -/
theorem c2_counterexample_first_nodeid_not_two :
    handle_fuse_request hostOk sess0 40 (hdrRoot 9) (.lookup "hello") =
      some (sess1 "hello" 1, [Msg.reply 9 (Body.entry 1000 0 10 10
        attrHello)]) ∧
    (1000 : Nat) ≠ 2 := by
  decide

/-- Counterexample to claim C6 as stated: the root refcount is seeded to
2, and a FORGET of the root itself with nlookup 2 (two node_release
calls) brings it to exactly 0 — the seed is reachable — after which the
source dereferences the null parent of the root (the run crashes). -/
theorem c6_counterexample_root_refcount_reaches_zero :
    (heapGet sess0.heap 100).map Node.refcount = some 2 ∧
    rc_at (forget_loop sess0 100 2) 100 = some 0 ∧
    isCrash (forget_loop sess0 100 2) = true := by
  decide

/-- Counterexample to claim C7 as stated: a message with declared length
30 (smaller than the 40-byte header) produces no reply, but the request
loop does NOT terminate: the following well-formed FLUSH is still
processed and answered — only the reply of the second message appears. -/
theorem c7_counterexample_loop_continues_after_framing_error :
    handle_fuse_requests hostOk sess0 [badEvt, flushEvt] =
      some (sess0, [Msg.status 7 0]) := by
  decide

/-- Counterexample to claim C9 as stated: root refcount before the child
is created is 2; after one LOOKUP of hello (refcount 1) and one FORGET
with nlookup 1 the node is freed and the root refcount is again 2 — its
pre-creation value — and not one lower than before the creation (1). -/
theorem c9_counterexample_parent_refcount_not_one_lower :
    (heapGet sess0.heap 100).map Node.refcount = some 2 ∧
    handle_fuse_requests hostOk sess0 [lookupEvt, forgetEvt 1] =
      some (sessEnd, [entryMsg]) ∧
    (heapGet sessEnd.heap 100).map Node.refcount = some 2 ∧
    (2 : Nat) ≠ 1 := by
  decide

/-- Claim C6 amended: the root refcount is seeded to 2 by fuse_init, so
a single node_release (a FORGET with nlookup 1) cannot bring it to zero;
but releases directed at the root itself CAN reach the seed: a FORGET of
the root with nlookup 2 brings the refcount to exactly 0, upon which the
source dereferences the null parent pointer of the root (the session
crashes).  The seed is therefore not a value unreachable by FORGETs. -/
theorem c6_root_seed_two_reachable_by_releases (ra base : Nat)
    (path : String) (flc : Bool) :
    (heapGet (fuse_init ra base path flc).heap ra).map Node.refcount =
      some 2 ∧
    rc_at (forget_loop (fuse_init ra base path flc) ra 1) ra = some 1 ∧
    isCrash (forget_loop (fuse_init ra base path flc) ra 1) = false ∧
    rc_at (forget_loop (fuse_init ra base path flc) ra 2) ra = some 0 ∧
    isCrash (forget_loop (fuse_init ra base path flc) ra 2) = true := by
  simp [fuse_init, forget_loop, node_release, heapGet, heapSet,
    dec_refcount, rc_at, isCrash]

/-- Claim C7 amended: a message whose declared length is smaller than
the header size or larger than the scratch buffer is rejected with no
reply, and the request loop CONTINUES with the next read; the session
loop terminates only when the channel read itself fails with an error
other than EINTR.  (The loop reads at most 8192 bytes per message, so
readLen is at most 8192.) -/
theorem c7_framing_error_no_reply_loop_continues (host : Host)
    (st : State) (readLen : Nat) (hdr : InHeader) (req : Request)
    (rest : List ReadEvent) (e : Nat) (h1 : readLen ≤ 8192)
    (h2 : hdr.len < 40 ∨ hdr.len > 262272) (h3 : e ≠ 4) :
    handle_fuse_request host st readLen hdr req = some (st, []) ∧
    handle_fuse_requests host st (.msg readLen hdr req :: rest) =
      handle_fuse_requests host st rest ∧
    handle_fuse_requests host st (.err 4 :: rest) =
      handle_fuse_requests host st rest ∧
    handle_fuse_requests host st (.err e :: rest) = some (st, []) := by
  have hrej : readLen < 40 ∨ hdr.len ≠ readLen := by omega
  have hreq : handle_fuse_request host st readLen hdr req = some (st, []) := by
    unfold handle_fuse_request
    rw [if_pos hrej]
  refine ⟨hreq, ?_, ?_, ?_⟩
  · simp only [handle_fuse_requests, hreq]
    rcases hr : handle_fuse_requests host st rest with _ | ⟨st2, ms2⟩ <;>
      simp [hr]
  · simp [handle_fuse_requests]
  · simp [handle_fuse_requests, h3]

/-- Witness for c7_framing_error_no_reply_loop_continues: a declared
length of 30 on a 30-byte read is rejected with no reply and the loop
goes on to answer a following FLUSH; a read error 5 ends the loop. -/
theorem c7_framing_error_no_reply_loop_continues_witness :
    (30 : Nat) ≤ 8192 ∧ ((30 : Nat) < 40 ∨ (30 : Nat) > 262272) ∧
    (5 : Nat) ≠ 4 ∧
    (handle_fuse_request hostOk sess0 30
        { len := 30, unique := 6, nodeid := 0 } Request.flush =
      some (sess0, []) ∧
    handle_fuse_requests hostOk sess0 (badEvt :: [flushEvt]) =
      handle_fuse_requests hostOk sess0 [flushEvt] ∧
    handle_fuse_requests hostOk sess0 (.err 4 :: [flushEvt]) =
      handle_fuse_requests hostOk sess0 [flushEvt] ∧
    handle_fuse_requests hostOk sess0 (.err 5 :: [flushEvt]) =
      some (sess0, [])) :=
  ⟨by decide, by decide, by decide,
   c7_framing_error_no_reply_loop_continues hostOk sess0 30
     { len := 30, unique := 6, nodeid := 0 } Request.flush [flushEvt] 5
     (by decide) (by decide) (by decide)⟩

theorem heapGet_nil (a : Nat) : heapGet [] a = none := rfl

theorem heapGet_head (a : Nat) (n : Node) (t : Heap) :
    heapGet ((a, n) :: t) a = some n := by
  simp [heapGet]

theorem heapGet_ne (k a : Nat) (n : Node) (t : Heap) (h : k ≠ a) :
    heapGet ((k, n) :: t) a = heapGet t a := by
  simp [heapGet, h]

theorem heapSet_nil (a : Nat) (n : Node) : heapSet [] a n = [] := rfl

theorem heapSet_head (a : Nat) (v n : Node) (t : Heap) :
    heapSet ((a, v) :: t) a n = (a, n) :: heapSet t a n := by
  simp [heapSet]

theorem heapSet_ne (k a : Nat) (v n : Node) (t : Heap) (h : k ≠ a) :
    heapSet ((k, v) :: t) a n = (k, v) :: heapSet t a n := by
  simp [heapSet, h]

theorem slen_root : ("/root" : String).length = 5 := rfl

theorem slen_hello : ("hello" : String).length = 5 := rfl

theorem attr_stat_hello :
    attr_from_stat zeroAttr statHello =
      { ino := 7, size := 5, blocks := 1, atime := 0, mtime := 0,
        ctime := 0, atimensec := 0, mtimensec := 0, ctimensec := 0,
        mode := 0o664, nlink := 1, uid := 0, gid := 1015, rdev := 0 } := by
  decide

/-- Claim C2 amended: next_node_id starts at 2 and next_generation at 0
and they increment in lockstep when a node is created, but the id drawn
from the counter is immediately overwritten with the pointer-punned
address of the freshly allocated node; the first LOOKUP of an existing
file replies with nodeid equal to that address (whatever calloc
returned, here the allocator base, not 2), generation 0, and attr.ino
equal to the replied nodeid. -/
theorem c2_nodeid_is_pointer_generation_zero (ra base u : Nat)
    (h0 : ra ≠ 0) (h1 : base ≠ ra) :
    (fuse_init ra base "/root" false).next_node_id = 2 ∧
    (fuse_init ra base "/root" false).next_generation = 0 ∧
    handle_fuse_request hostOk (fuse_init ra base "/root" false) 40
        { len := 40, unique := u, nodeid := 1 } (.lookup "hello") =
      some (StC2 ra base,
        [Msg.reply u (Body.entry base 0 10 10 (attrAt base))]) ∧
    (StC2 ra base).next_node_id = 3 ∧
    (StC2 ra base).next_generation = 1 ∧
    (attrAt base).ino = base := by
  have h2 : ra ≠ base := Ne.symm h1
  refine ⟨rfl, rfl, ?_, rfl, rfl, rfl⟩
  simp [handle_fuse_request, fuse_init, lookup_by_inode, lookup_entry,
    node_lookup, node_get_path, path_chain, lookup_child_by_name,
    lcbn_walk, node_create, add_node_to_parent, do_lstat, hostOk,
    fuse_reply, fuse_status, inc32, attrAt, attrHello, attr_stat_hello,
    normalize_name, slen_root, slen_hello, heapGet_nil, heapGet_head,
    heapGet_ne, heapSet_nil, heapSet_head, heapSet_ne, h0, h1, h2,
    StC2]

/-- Witness for c2_nodeid_is_pointer_generation_zero with root address
100 and allocator base 1000. -/
theorem c2_nodeid_is_pointer_generation_zero_witness :
    (100 : Nat) ≠ 0 ∧ (1000 : Nat) ≠ 100 ∧
    ((fuse_init 100 1000 "/root" false).next_node_id = 2 ∧
    (fuse_init 100 1000 "/root" false).next_generation = 0 ∧
    handle_fuse_request hostOk (fuse_init 100 1000 "/root" false) 40
        { len := 40, unique := 9, nodeid := 1 } (.lookup "hello") =
      some (StC2 100 1000,
        [Msg.reply 9 (Body.entry 1000 0 10 10 (attrAt 1000))]) ∧
    (StC2 100 1000).next_node_id = 3 ∧
    (StC2 100 1000).next_generation = 1 ∧
    (attrAt 1000).ino = 1000) :=
  ⟨by decide, by decide,
   c2_nodeid_is_pointer_generation_zero 100 1000 9 (by decide) (by decide)⟩

theorem slen_d : ("d" : String).length = 1 := rfl

theorem slen_s : ("s" : String).length = 1 := rfl

theorem slen_f : ("f" : String).length = 1 := rfl

theorem slen_g : ("g" : String).length = 1 := rfl

theorem hfr_cons {host : Host} {st : State} {l : Nat} {hdr : InHeader}
    {req : Request} {st1 : State} {ms1 : List Msg}
    (h : handle_fuse_request host st l hdr req = some (st1, ms1))
    (rest : List ReadEvent) :
    handle_fuse_requests host st (.msg l hdr req :: rest) =
      match handle_fuse_requests host st1 rest with
      | none => none
      | some (st2, ms2) => some (st2, ms1 ++ ms2) := by
  show (match handle_fuse_request host st l hdr req with
        | none => none
        | some (st1, ms) =>
          match handle_fuse_requests host st1 rest with
          | none => none
          | some (st2, ms2) => some (st2, ms ++ ms2)) = _
  rw [h]

theorem c9_lk_d (ra base : Nat) (hra : 0 < ra) (hb : ra < base) :
    handle_fuse_request hostOk (fuse_init ra base "/root" false) 40
        { len := 40, unique := 11, nodeid := 1 } (.lookup "d") =
      some (StD1 ra base, [eDMsg base]) := by
  have h1 : ra ≠ 0 := by omega
  have h4 : base ≠ ra := by omega
  have h5 : ra ≠ base := by omega
  simp [handle_fuse_request, fuse_init, lookup_by_inode, lookup_entry,
    node_lookup, node_get_path, path_chain, lookup_child_by_name,
    lcbn_walk, node_create, add_node_to_parent, do_lstat, hostOk,
    fuse_reply, fuse_status, inc32, attrAt, attrHello, attr_stat_hello,
    normalize_name, slen_root, slen_d, heapGet_nil, heapGet_head,
    heapGet_ne, heapSet_nil, heapSet_head, heapSet_ne, h1, h4, h5,
    StD1, dNode, rootNode3, eDMsg]

theorem c9_lk_s (ra base : Nat) (hra : 0 < ra) (hb : ra < base) :
    handle_fuse_request hostOk (StD1 ra base) 40
        { len := 40, unique := 12, nodeid := base } (.lookup "s") =
      some (StD2 ra base, [eSMsg base]) := by
  have h1 : ra ≠ 0 := by omega
  have h2 : base ≠ 1 := by omega
  have h3 : base ≠ 0 := by omega
  have h4 : base ≠ ra := by omega
  have h5 : ra ≠ base := by omega
  have h6 : base + 1 ≠ ra := by omega
  have h7 : ra ≠ base + 1 := by omega
  simp [handle_fuse_request, lookup_by_inode, lookup_entry,
    node_lookup, node_get_path, path_chain, lookup_child_by_name,
    lcbn_walk, node_create, add_node_to_parent, do_lstat, hostOk,
    fuse_reply, fuse_status, inc32, attrAt, attrHello, attr_stat_hello,
    normalize_name, slen_root, slen_d, slen_s, heapGet_nil, heapGet_head,
    heapGet_ne, heapSet_nil, heapSet_head, heapSet_ne, h1, h2, h3, h4,
    h5, h6, h7, StD1, StD2, dNode, sNode, rootNode3, eSMsg]

theorem c9_lk_f_first (ra base : Nat) (hra : 0 < ra) (hb : ra < base) :
    handle_fuse_request hostOk (StD2 ra base) 40
        { len := 40, unique := 13, nodeid := base } (.lookup "f") =
      some (StDF ra base 1, [eFMsg base]) := by
  have h1 : ra ≠ 0 := by omega
  have h2 : base ≠ 1 := by omega
  have h3 : base ≠ 0 := by omega
  have h4 : base ≠ ra := by omega
  have h5 : ra ≠ base := by omega
  have h6 : base + 1 ≠ ra := by omega
  have h7 : ra ≠ base + 1 := by omega
  have h8 : base + 2 ≠ ra := by omega
  have h9 : ra ≠ base + 2 := by omega
  have hsf : ¬(("s" : String) = "f") := by decide
  simp [handle_fuse_request, lookup_by_inode, lookup_entry,
    node_lookup, node_get_path, path_chain, lookup_child_by_name,
    lcbn_walk, node_create, add_node_to_parent, do_lstat, hostOk,
    fuse_reply, fuse_status, inc32, attrAt, attrHello, attr_stat_hello,
    normalize_name, slen_root, slen_d, slen_s, slen_f, heapGet_nil,
    heapGet_head, heapGet_ne, heapSet_nil, heapSet_head, heapSet_ne,
    h1, h2, h3, h4, h5, h6, h7, h8, h9, hsf, StD2, StDF, dNode, sNode,
    fNode, rootNode3, eFMsg]

theorem c9_lk_f_step (ra base k : Nat) (hra : 0 < ra) (hb : ra < base)
    (_hk : 1 ≤ k) (hk2 : k + 1 < 4294967296) :
    handle_fuse_request hostOk (StDF ra base k) 40
        { len := 40, unique := 13, nodeid := base } (.lookup "f") =
      some (StDF ra base (k + 1), [eFMsg base]) := by
  have h1 : ra ≠ 0 := by omega
  have h2 : base ≠ 1 := by omega
  have h3 : base ≠ 0 := by omega
  have h4 : base ≠ ra := by omega
  have h5 : ra ≠ base := by omega
  have h6 : base + 1 ≠ ra := by omega
  have h7 : ra ≠ base + 1 := by omega
  have h8 : base + 2 ≠ ra := by omega
  have h9 : ra ≠ base + 2 := by omega
  simp [handle_fuse_request, lookup_by_inode, lookup_entry,
    node_lookup, node_get_path, path_chain, lookup_child_by_name,
    lcbn_walk, do_lstat, hostOk, fuse_reply, fuse_status, inc32,
    attrAt, attrHello, attr_stat_hello, normalize_name, slen_root,
    slen_d, slen_f, heapGet_nil, heapGet_head, heapGet_ne, heapSet_nil,
    heapSet_head, heapSet_ne, h1, h2, h3, h4, h5, h6, h7, h8, h9,
    StDF, dNode, sNode, fNode, rootNode3, eFMsg,
    Nat.mod_eq_of_lt hk2]

theorem c9_lk_g (ra base k : Nat) (hra : 0 < ra) (hb : ra < base) :
    handle_fuse_request hostOk (StDF ra base k) 40
        { len := 40, unique := 14, nodeid := base } (.lookup "g") =
      some (StDG ra base k, [eGMsg base]) := by
  have h1 : ra ≠ 0 := by omega
  have h2 : base ≠ 1 := by omega
  have h3 : base ≠ 0 := by omega
  have h4 : base ≠ ra := by omega
  have h5 : ra ≠ base := by omega
  have h6 : base + 1 ≠ ra := by omega
  have h7 : ra ≠ base + 1 := by omega
  have h8 : base + 2 ≠ ra := by omega
  have h9 : ra ≠ base + 2 := by omega
  have h10 : base + 3 ≠ ra := by omega
  have h11 : ra ≠ base + 3 := by omega
  have hfg : ¬(("f" : String) = "g") := by decide
  have hsg : ¬(("s" : String) = "g") := by decide
  simp [handle_fuse_request, lookup_by_inode, lookup_entry,
    node_lookup, node_get_path, path_chain, lookup_child_by_name,
    lcbn_walk, node_create, add_node_to_parent, do_lstat, hostOk,
    fuse_reply, fuse_status, inc32, attrAt, attrHello, attr_stat_hello,
    normalize_name, slen_root, slen_d, slen_f, slen_g, heapGet_nil,
    heapGet_head, heapGet_ne, heapSet_nil, heapSet_head, heapSet_ne,
    h1, h2, h3, h4, h5, h6, h7, h8, h9, h10, h11, hfg, hsg, StDF, StDG,
    dNode, sNode, fNode, gNode, rootNode3, eGMsg]

theorem heapRemove_nil (a : Nat) : heapRemove [] a = [] := rfl

theorem heapRemove_head (a : Nat) (v : Node) (t : Heap) :
    heapRemove ((a, v) :: t) a = heapRemove t a := by
  simp [heapRemove]

theorem heapRemove_ne (k a : Nat) (v : Node) (t : Heap) (h : k ≠ a) :
    heapRemove ((k, v) :: t) a = (k, v) :: heapRemove t a := by
  simp [heapRemove, h]

theorem c9_rel_f_step (ra base k : Nat) (hra : 0 < ra) (hb : ra < base)
    (hk : 2 ≤ k) :
    node_release 6 (StDG ra base k) (base + 2) =
      RRes.ok (StDG ra base (k - 1)) := by
  have h9 : ra ≠ base + 2 := by omega
  have hpos : 0 < k := by omega
  have hne : ¬(k - 1 = 0) := by omega
  simp [node_release, dec_refcount, hpos, hne, heapGet_nil, heapGet_head,
    heapGet_ne, heapSet_nil, heapSet_head, heapSet_ne, h9, StDG, dNode,
    sNode, fNode, gNode, rootNode3]

theorem c9_rel_f_last (ra base : Nat) (hra : 0 < ra) (hb : ra < base) :
    node_release 6 (StDG ra base 1) (base + 2) =
      RRes.ok (StDPostF ra base) := by
  have h4 : base ≠ ra := by omega
  have h5 : ra ≠ base := by omega
  have h8 : base + 2 ≠ ra := by omega
  have h9 : ra ≠ base + 2 := by omega
  have h10 : base + 3 ≠ ra := by omega
  have h11 : ra ≠ base + 3 := by omega
  simp [node_release, dec_refcount, sibling_unlink, heapGet_nil,
    heapGet_head, heapGet_ne, heapSet_nil, heapSet_head, heapSet_ne,
    heapRemove_nil, heapRemove_head, heapRemove_ne, h4, h5, h8, h9, h10,
    h11, StDG, StDPostF, dNode, sNode, fNode, gNode, rootNode3]

theorem c9_forget_f_all (ra base : Nat) (hra : 0 < ra) (hb : ra < base) :
    ∀ k, 1 ≤ k →
    forget_loop (StDG ra base k) (base + 2) k = RRes.ok (StDPostF ra base) := by
  intro k
  induction k with
  | zero => intro h; omega
  | succ n ih =>
    intro _
    by_cases hn : n = 0
    · subst hn
      have hlast := c9_rel_f_last ra base hra hb
      have hlen : (StDG ra base 1).heap.length + 1 = 6 := rfl
      rw [forget_loop, hlen, hlast]
      rfl
    · have hrel := c9_rel_f_step ra base (n + 1) hra hb (by omega)
      have hlen : (StDG ra base (n + 1)).heap.length + 1 = 6 := rfl
      rw [forget_loop, hlen, hrel]
      simp only [Nat.add_sub_cancel]
      exact ih (by omega)

theorem c9_fg_f (ra base N : Nat) (hra : 0 < ra) (hb : ra < base)
    (h1 : 1 ≤ N) :
    handle_fuse_request hostOk (StDG ra base N) 40
        { len := 40, unique := 15, nodeid := base + 2 } (.forget N) =
      some (StDPostF ra base, []) := by
  have hfa := c9_forget_f_all ra base hra hb N h1
  simp [handle_fuse_request, lookup_by_inode, hfa]

theorem c9_fg_g (ra base : Nat) (hra : 0 < ra) (hb : ra < base) :
    handle_fuse_request hostOk (StDPostF ra base) 40
        { len := 40, unique := 16, nodeid := base + 3 } (.forget 1) =
      some (StDPostG ra base, []) := by
  have h4 : base ≠ ra := by omega
  have h5 : ra ≠ base := by omega
  have h10 : base + 3 ≠ ra := by omega
  have h11 : ra ≠ base + 3 := by omega
  have h6 : base + 1 ≠ ra := by omega
  have h7 : ra ≠ base + 1 := by omega
  simp [handle_fuse_request, lookup_by_inode, forget_loop, node_release,
    dec_refcount, sibling_unlink, heapGet_nil, heapGet_head, heapGet_ne,
    heapSet_nil, heapSet_head, heapSet_ne, heapRemove_nil,
    heapRemove_head, heapRemove_ne, h4, h5, h6, h7, h10, h11, StDPostF,
    StDPostG, dNode, sNode, gNode, rootNode3]

theorem c9_fg_s (ra base : Nat) (hra : 0 < ra) (hb : ra < base) :
    handle_fuse_request hostOk (StDPostG ra base) 40
        { len := 40, unique := 17, nodeid := base + 1 } (.forget 1) =
      some (StDPostS ra base, []) := by
  have h3 : base ≠ 0 := by omega
  have h4 : base ≠ ra := by omega
  have h5 : ra ≠ base := by omega
  have h6 : base + 1 ≠ ra := by omega
  have h7 : ra ≠ base + 1 := by omega
  simp [handle_fuse_request, lookup_by_inode, forget_loop, node_release,
    dec_refcount, sibling_unlink, heapGet_nil, heapGet_head, heapGet_ne,
    heapSet_nil, heapSet_head, heapSet_ne, heapRemove_nil,
    heapRemove_head, heapRemove_ne, h3, h4, h5, h6, h7, StDPostG,
    StDPostS, dNode, sNode, rootNode3]

theorem c9_fg_d (ra base : Nat) (hra : 0 < ra) (hb : ra < base) :
    handle_fuse_request hostOk (StDPostS ra base) 40
        { len := 40, unique := 18, nodeid := base } (.forget 1) =
      some (StDEnd ra base, []) := by
  have h2 : base ≠ 1 := by omega
  have h3 : base ≠ 0 := by omega
  have h4 : base ≠ ra := by omega
  have h5 : ra ≠ base := by omega
  simp [handle_fuse_request, lookup_by_inode, forget_loop, node_release,
    dec_refcount, sibling_unlink, heapGet_nil, heapGet_head, heapGet_ne,
    heapSet_nil, heapSet_head, heapSet_ne, heapRemove_nil,
    heapRemove_head, heapRemove_ne, h2, h3, h4, h5, StDPostS, StDEnd,
    dNode, rootNode3]

theorem hfr_cons_ev {host : Host} {st : State} {l : Nat} {hdr : InHeader}
    {req : Request} {st1 : State} {ms1 : List Msg} (e : ReadEvent)
    (he : e = .msg l hdr req)
    (h : handle_fuse_request host st l hdr req = some (st1, ms1))
    (rest : List ReadEvent) :
    handle_fuse_requests host st (e :: rest) =
      match handle_fuse_requests host st1 rest with
      | none => none
      | some (st2, ms2) => some (st2, ms1 ++ ms2) := by
  subst he
  exact hfr_cons h rest

theorem hfr_single_ev {host : Host} {st : State} {l : Nat}
    {hdr : InHeader} {req : Request} {st1 : State} {ms1 : List Msg}
    (e : ReadEvent) (he : e = .msg l hdr req)
    (h : handle_fuse_request host st l hdr req = some (st1, ms1)) :
    handle_fuse_requests host st [e] = some (st1, ms1) := by
  subst he
  rw [hfr_cons h []]
  simp [handle_fuse_requests]

theorem c9_loop_f (ra base : Nat) (hra : 0 < ra) (hb : ra < base)
    (j : Nat) : ∀ (k : Nat) (tail : List ReadEvent), 1 ≤ k →
    k + j < 4294967296 →
    handle_fuse_requests hostOk (StDF ra base k)
        (List.replicate j (lkFEvt base) ++ tail) =
      match handle_fuse_requests hostOk (StDF ra base (k + j)) tail with
      | none => none
      | some (st2, ms) =>
        some (st2, List.replicate j (eFMsg base) ++ ms) := by
  induction j with
  | zero =>
    intro k tail h1 h2
    rcases hr : handle_fuse_requests hostOk (StDF ra base k) tail with
      _ | ⟨st2, ms⟩ <;> simp [hr]
  | succ n ih =>
    intro k tail h1 h2
    rw [List.replicate_succ, List.cons_append]
    rw [hfr_cons_ev (lkFEvt base) rfl
      (c9_lk_f_step ra base k hra hb h1 (by omega))]
    have hih := ih (k + 1) tail (by omega) (by omega)
    rw [show k + 1 + n = k + (n + 1) from by omega] at hih
    rw [hih]
    rcases hr : handle_fuse_requests hostOk (StDF ra base (k + (n + 1)))
        tail with _ | ⟨st2, ms⟩ <;>
      simp [hr, List.replicate_succ]

theorem c9_run_f_segment (ra base N : Nat) (hra : 0 < ra)
    (hb : ra < base) (h1 : 1 ≤ N) (h2 : N < 4294967296)
    (tail : List ReadEvent) :
    handle_fuse_requests hostOk (StD2 ra base)
        (List.replicate N (lkFEvt base) ++ (lkGEvt base :: tail)) =
      match handle_fuse_requests hostOk (StDG ra base N) tail with
      | none => none
      | some (st2, ms) =>
        some (st2, List.replicate N (eFMsg base) ++ ([eGMsg base] ++ ms)) := by
  obtain ⟨M, rfl⟩ : ∃ M, N = M + 1 := ⟨N - 1, by omega⟩
  rw [List.replicate_succ, List.cons_append]
  rw [hfr_cons_ev (lkFEvt base) rfl (c9_lk_f_first ra base hra hb)]
  rw [c9_loop_f ra base hra hb M 1 (lkGEvt base :: tail) (by omega)
    (by omega)]
  rw [show 1 + M = M + 1 from by omega]
  rw [hfr_cons_ev (lkGEvt base) rfl (c9_lk_g ra base (M + 1) hra hb)]
  rcases hr : handle_fuse_requests hostOk (StDG ra base (M + 1)) tail with
    _ | ⟨st2, ms⟩ <;> simp [hr, List.replicate_succ]

/-- Claim C9 amended: for every N at least 1, N successful LOOKUPs of a
name (refcount N) followed by one FORGET with nlookup = N detach the
node from its parent and free it, and the FORGET leaves the parent
refcount exactly one lower than while the node was alive — restored to
its value from before the node was created once the nodes created in
between are forgotten as well — NOT one lower than before the creation.
Established over every detach constellation the source distinguishes,
at arbitrary root address ra and allocator base: the target f lives
under a NON-ROOT directory d, has an earlier sibling s behind it and a
later sibling g in front of it, so its release runs the sibling-splice
branch of node_release (g.next moves from f to s); g, s are then freed
through the first-child branch, and d itself through the first-child
branch under the ROOT with the cascade reaching the root seed 2. -/
theorem c9_lookup_forget_frees_node_parent_restored (ra base N : Nat)
    (hra : 0 < ra) (hb : ra < base) (h1 : 1 ≤ N) (h2 : N < 4294967296) :
    handle_fuse_requests hostOk (fuse_init ra base "/root" false)
        [lkDEvt, lkSEvt base] =
      some (StD2 ra base, [eDMsg base, eSMsg base]) ∧
    (heapGet (StD2 ra base).heap base).map Node.refcount = some 2 ∧
    handle_fuse_requests hostOk (StD2 ra base)
        (List.replicate N (lkFEvt base) ++ [lkGEvt base]) =
      some (StDG ra base N,
        List.replicate N (eFMsg base) ++ [eGMsg base]) ∧
    (heapGet (StDG ra base N).heap (base + 2)).map Node.refcount =
      some N ∧
    (heapGet (StDG ra base N).heap (base + 2)).map Node.parent =
      some (some base) ∧
    (heapGet (StDG ra base N).heap base).map Node.child =
      some (some (base + 3)) ∧
    (heapGet (StDG ra base N).heap (base + 3)).map Node.next =
      some (some (base + 2)) ∧
    (heapGet (StDG ra base N).heap base).map Node.refcount = some 4 ∧
    handle_fuse_requests hostOk (StDG ra base N) [fgFEvt base N] =
      some (StDPostF ra base, []) ∧
    heapGet (StDPostF ra base).heap (base + 2) = none ∧
    (heapGet (StDPostF ra base).heap (base + 3)).map Node.next =
      some (some (base + 1)) ∧
    (heapGet (StDPostF ra base).heap base).map Node.refcount = some 3 ∧
    handle_fuse_requests hostOk (StDPostF ra base) [fgGEvt base] =
      some (StDPostG ra base, []) ∧
    (heapGet (StDPostG ra base).heap base).map Node.refcount = some 2 ∧
    handle_fuse_requests hostOk (StDPostG ra base)
        [fgSEvt base, fgDEvt base] = some (StDEnd ra base, []) ∧
    (heapGet (StDEnd ra base).heap ra).map Node.refcount = some 2 ∧
    (heapGet (StDEnd ra base).heap ra).map Node.child = some none ∧
    heapGet (StDEnd ra base).heap base = none ∧
    handle_fuse_requests hostOk (fuse_init ra base "/root" false)
        ([lkDEvt, lkSEvt base] ++
         (List.replicate N (lkFEvt base) ++ [lkGEvt base]) ++
         [fgFEvt base N] ++ [fgGEvt base] ++ [fgSEvt base, fgDEvt base]) =
      some (StDEnd ra base,
        [eDMsg base, eSMsg base] ++
        (List.replicate N (eFMsg base) ++ [eGMsg base])) := by
  have h4 : base ≠ ra := by omega
  have h5 : ra ≠ base := by omega
  have h6 : base + 1 ≠ ra := by omega
  have h7 : ra ≠ base + 1 := by omega
  have h8 : base + 2 ≠ ra := by omega
  have h9 : ra ≠ base + 2 := by omega
  have h10 : base + 3 ≠ ra := by omega
  have h11 : ra ≠ base + 3 := by omega
  have ha : handle_fuse_requests hostOk (fuse_init ra base "/root" false)
      [lkDEvt, lkSEvt base] =
      some (StD2 ra base, [eDMsg base, eSMsg base]) := by
    rw [hfr_cons_ev lkDEvt rfl (c9_lk_d ra base hra hb)]
    rw [hfr_single_ev (lkSEvt base) rfl (c9_lk_s ra base hra hb)]
    rfl
  have hbseg : handle_fuse_requests hostOk (StD2 ra base)
      (List.replicate N (lkFEvt base) ++ [lkGEvt base]) =
      some (StDG ra base N,
        List.replicate N (eFMsg base) ++ [eGMsg base]) := by
    have := c9_run_f_segment ra base N hra hb h1 h2 []
    rw [this]
    simp [handle_fuse_requests]
  have hc : handle_fuse_requests hostOk (StDG ra base N)
      [fgFEvt base N] = some (StDPostF ra base, []) :=
    hfr_single_ev (fgFEvt base N) rfl (c9_fg_f ra base N hra hb h1)
  have hd : handle_fuse_requests hostOk (StDPostF ra base)
      [fgGEvt base] = some (StDPostG ra base, []) :=
    hfr_single_ev (fgGEvt base) rfl (c9_fg_g ra base hra hb)
  have he : handle_fuse_requests hostOk (StDPostG ra base)
      [fgSEvt base, fgDEvt base] = some (StDEnd ra base, []) := by
    rw [hfr_cons_ev (fgSEvt base) rfl (c9_fg_s ra base hra hb)]
    rw [hfr_single_ev (fgDEvt base) rfl (c9_fg_d ra base hra hb)]
    rfl
  have hf : handle_fuse_requests hostOk (fuse_init ra base "/root" false)
      ([lkDEvt, lkSEvt base] ++
       (List.replicate N (lkFEvt base) ++ [lkGEvt base]) ++
       [fgFEvt base N] ++ [fgGEvt base] ++ [fgSEvt base, fgDEvt base]) =
      some (StDEnd ra base,
        [eDMsg base, eSMsg base] ++
        (List.replicate N (eFMsg base) ++ [eGMsg base])) := by
    simp only [List.cons_append, List.nil_append, List.append_assoc]
    rw [hfr_cons_ev lkDEvt rfl (c9_lk_d ra base hra hb)]
    rw [hfr_cons_ev (lkSEvt base) rfl (c9_lk_s ra base hra hb)]
    rw [c9_run_f_segment ra base N hra hb h1 h2
      (fgFEvt base N :: fgGEvt base :: fgSEvt base :: fgDEvt base :: [])]
    rw [hfr_cons_ev (fgFEvt base N) rfl (c9_fg_f ra base N hra hb h1)]
    rw [hfr_cons_ev (fgGEvt base) rfl (c9_fg_g ra base hra hb)]
    rw [hfr_cons_ev (fgSEvt base) rfl (c9_fg_s ra base hra hb)]
    rw [hfr_single_ev (fgDEvt base) rfl (c9_fg_d ra base hra hb)]
    simp
  refine ⟨ha, ?_, hbseg, ?_, ?_, ?_, ?_, ?_, hc, ?_, ?_, ?_, hd, ?_,
    he, ?_, ?_, ?_, hf⟩ <;>
    simp [StD2, StDG, StDPostF, StDPostG, StDEnd, dNode, sNode, fNode,
      gNode, rootNode3, heapGet_nil, heapGet_head, heapGet_ne, h4, h5,
      h6, h7, h8, h9, h10, h11]

/-- Witness for c9_lookup_forget_frees_node_parent_restored at root
address 100, allocator base 1000, N = 1. -/
theorem c9_lookup_forget_frees_node_parent_restored_witness :
    (0 : Nat) < 100 ∧ (100 : Nat) < 1000 ∧ (1 : Nat) ≤ 1 ∧
    (1 : Nat) < 4294967296 ∧
    (handle_fuse_requests hostOk (fuse_init 100 1000 "/root" false)
        [lkDEvt, lkSEvt 1000] =
      some (StD2 100 1000, [eDMsg 1000, eSMsg 1000]) ∧
    (heapGet (StD2 100 1000).heap 1000).map Node.refcount = some 2 ∧
    handle_fuse_requests hostOk (StD2 100 1000)
        (List.replicate 1 (lkFEvt 1000) ++ [lkGEvt 1000]) =
      some (StDG 100 1000 1,
        List.replicate 1 (eFMsg 1000) ++ [eGMsg 1000]) ∧
    (heapGet (StDG 100 1000 1).heap 1002).map Node.refcount = some 1 ∧
    (heapGet (StDG 100 1000 1).heap 1002).map Node.parent =
      some (some 1000) ∧
    (heapGet (StDG 100 1000 1).heap 1000).map Node.child =
      some (some 1003) ∧
    (heapGet (StDG 100 1000 1).heap 1003).map Node.next =
      some (some 1002) ∧
    (heapGet (StDG 100 1000 1).heap 1000).map Node.refcount = some 4 ∧
    handle_fuse_requests hostOk (StDG 100 1000 1) [fgFEvt 1000 1] =
      some (StDPostF 100 1000, []) ∧
    heapGet (StDPostF 100 1000).heap 1002 = none ∧
    (heapGet (StDPostF 100 1000).heap 1003).map Node.next =
      some (some 1001) ∧
    (heapGet (StDPostF 100 1000).heap 1000).map Node.refcount = some 3 ∧
    handle_fuse_requests hostOk (StDPostF 100 1000) [fgGEvt 1000] =
      some (StDPostG 100 1000, []) ∧
    (heapGet (StDPostG 100 1000).heap 1000).map Node.refcount = some 2 ∧
    handle_fuse_requests hostOk (StDPostG 100 1000)
        [fgSEvt 1000, fgDEvt 1000] = some (StDEnd 100 1000, []) ∧
    (heapGet (StDEnd 100 1000).heap 100).map Node.refcount = some 2 ∧
    (heapGet (StDEnd 100 1000).heap 100).map Node.child = some none ∧
    heapGet (StDEnd 100 1000).heap 1000 = none ∧
    handle_fuse_requests hostOk (fuse_init 100 1000 "/root" false)
        ([lkDEvt, lkSEvt 1000] ++
         (List.replicate 1 (lkFEvt 1000) ++ [lkGEvt 1000]) ++
         [fgFEvt 1000 1] ++ [fgGEvt 1000] ++ [fgSEvt 1000, fgDEvt 1000]) =
      some (StDEnd 100 1000,
        [eDMsg 1000, eSMsg 1000] ++
        (List.replicate 1 (eFMsg 1000) ++ [eGMsg 1000]))) :=
  ⟨by decide, by decide, by decide, by decide,
   c9_lookup_forget_frees_node_parent_restored 100 1000 1 (by decide)
     (by decide) (by decide) (by decide)⟩
